import Mathlib

/-!
Shallow embedding of the lifecycle, health-check, readiness and
termination-log code of the srv microservice toolkit, together with proofs
about the claims of its specification.

Conventions of the embedding:
* Go errors are represented as `Option Err` with `Err := String`; `none` is
  the nil error.
* Go `time.Duration` and `int` values are represented as `Int` (Go int64),
  with durations in nanoseconds.
* Wall-clock timestamps carried by the Go structs are elided: no claim reads
  them, and no branch of the modelled code depends on them.
* Concurrency is resolved into explicit event sequences: the per-check
  dispatcher loop becomes a fold over the sequence of per-invocation results,
  and the shutdown watcher becomes a function of the sequence of values
  received on the job-error channel.
-/


abbrev Err := String

/-- One second in nanoseconds, the unit of Go time.Duration. -/
def second : Int := 1000000000

/-- Default health check interval (30 seconds), from the health package. -/
def defaultInterval : Int := 30 * second

/-- Default health check timeout (10 seconds), from the health package. -/
def defaultTimeout : Int := 10 * second

/-- HealthCheck carries the registration data of one health check
(internal/health). The check function itself is modelled separately, as the
sequence of results its invocations produce. -/
structure HealthCheck where
  id : String
  interval : Int
  timeout : Int
  maxFailures : Int
  deriving Repr, DecidableEq

/-- checkStatus from the health package, minus the wall-clock Timestamp
field, which no modelled branch reads. -/
structure CheckStatus where
  err : Option Err
  failures : Int
  maxFailures : Int
  deriving Repr, DecidableEq

/-- The health Handler state: the registered checks, the status map
(modelled as an insertion-ordered association list), the started flag, and
whether the handler context has been cancelled (Close). -/
structure Handler where
  checks : List HealthCheck
  status : List (String × CheckStatus)
  started : Bool
  closed : Bool
  deriving Repr, DecidableEq

/-- NewHandler: no checks, empty status map, not started, context live. -/
def emptyHandler : Handler := ⟨[], [], false, false⟩

/-- Go map assignment on the association-list model of the status map. -/
def updateStatus (m : List (String × CheckStatus)) (k : String) (v : CheckStatus) :
    List (String × CheckStatus) :=
  match m with
  | [] => [(k, v)]
  | (k2, v2) :: rest => if k2 = k then (k, v) :: rest else (k2, v2) :: updateStatus rest k v

/-- Handler.AddCheck of the instrumentation-era health package: rejects when
the handler context is done, when Interval is not greater than Timeout
(tested on the values as supplied), or when the ID is already present in the
status map; otherwise applies defaults (Interval when non-positive, Timeout
when non-positive, MaxFailures only when negative) and appends the check. -/
def Handler.AddCheck (h : Handler) (check : HealthCheck) : Except String Handler :=
  if h.closed then .error "handler was closed"
  else if check.interval ≤ check.timeout then .error "interval must be greater than timeout"
  else if (h.status.lookup check.id).isSome then .error "duplicate health check name"
  else
    let check := { check with
      interval := if check.interval ≤ 0 then defaultInterval else check.interval
      timeout := if check.timeout ≤ 0 then defaultTimeout else check.timeout
      maxFailures := if check.maxFailures < 0 then 1 else check.maxFailures }
    .ok { h with checks := h.checks ++ [check] }

/-- Handler.Start: on first call, marks the handler started and creates one
fresh status entry per registered check (spawning of the dispatcher
goroutines is modelled separately by `dispatchRun`). -/
def Handler.Start (h : Handler) : Handler :=
  if h.started then h
  else
    { h with
      started := true
      status := h.checks.foldl (fun m c => updateStatus m c.id ⟨none, 0, c.maxFailures⟩) h.status }

/-- Handler.ServeHTTP for the /livez route, non-verbose: 500 NOT_OK when some
status entry has Failures at or above its MaxFailures, else 200 OK. -/
def Handler.ServeHTTP (h : Handler) : Nat × String :=
  if h.status.any (fun kv => decide (kv.2.maxFailures ≤ kv.2.failures)) then (500, "NOT_OK")
  else (200, "OK")

/-- Handler with exactly one started check status, used to read the /livez
aggregate of a single check. -/
def startedWith (id : String) (st : CheckStatus) : Handler := ⟨[], [(id, st)], true, false⟩

/-- The /livez HTTP status code for a single check status. -/
def livezSingle (st : CheckStatus) : Nat := (startedWith "check" st).ServeHTTP.1

/-- Log events emitted by runCheck. -/
inductive HEvent where
  | recovered : HEvent
  | warnFailed : Int → Int → HEvent
  | errorFailed : HEvent
  deriving Repr, DecidableEq

/-- The failure-accounting tail of Handler.runCheck, given the resolved
result of one invocation of the check function (the select over the result
channel, the timeout and the handler context is resolved into `result`;
a nil result resets the counter and logs recovery if it had failed before,
a non-nil result increments the counter and the check becomes terminal when
the counter reaches MaxFailures). Returns the new status, whether the
check is terminally failed (runCheck returned true), and the log events. -/
def runCheck (st : CheckStatus) (result : Option Err) : CheckStatus × Bool × List HEvent :=
  let st := { st with err := result }
  match result with
  | none =>
    let evs := if (0:Int) < st.failures then [HEvent.recovered] else []
    ({ st with failures := 0 }, false, evs)
  | some _ =>
    let st := { st with failures := st.failures + 1 }
    if st.maxFailures ≤ st.failures then (st, true, [HEvent.errorFailed])
    else (st, false, [HEvent.warnFailed st.failures st.maxFailures])

/-- Result of running a dispatcher loop over a sequence of invocation
results: the final status, whether the loop exited because the check failed
terminally, the emitted log events, and the status after each invocation. -/
structure DispatchOut where
  final : CheckStatus
  terminal : Bool
  events : List HEvent
  trace : List CheckStatus
  deriving Repr, DecidableEq

/-- Handler.dispatcher: one runCheck per tick, stopping permanently when
runCheck reports terminal failure. The ticker is modelled by the list of
per-invocation results. -/
def dispatchRun (st : CheckStatus) : List (Option Err) → DispatchOut
  | [] => ⟨st, false, [], []⟩
  | r :: rs =>
    let res := runCheck st r
    if res.2.1 then ⟨res.1, true, res.2.2, [res.1]⟩
    else
      let o := dispatchRun res.1 rs
      ⟨o.final, o.terminal, res.2.2 ++ o.events, res.1 :: o.trace⟩

/-- Behaviour of one user-supplied function with an error return: it either
returns (possibly with a non-nil error) or panics with a value. -/
inductive HandlerB where
  | ret : Option Err → HandlerB
  | panics : String → HandlerB
  deriving Repr, DecidableEq

/-- Whether the behaviour is a panic. -/
def HandlerB.isPanics : HandlerB → Bool
  | .ret _ => false
  | .panics _ => true

/-- The error that runShutdownHandler reports for this behaviour: the
returned error on the return path, the recovered panic wrapped in
"handler panicked" on the panic path. -/
def HandlerB.retErr : HandlerB → Option Err
  | .ret e => e
  | .panics v => some ("handler panicked " ++ v)

/-- runShutdownHandler: invokes the handler under a recover, reporting
(panicked, err); a recovered panic value v becomes the error
"handler panicked v". -/
def runShutdownHandler : HandlerB → Bool × Option Err
  | .ret e => (false, e)
  | .panics v => (true, some ("handler panicked " ++ v))

/-- Observable events of the shutdown handler loop: a handler invocation
(debug log with its zero-based position), a skip warning for a handler
skipped after a panic, the error log for a failed handler (with its
one-based position and the total handler count), and the pushgateway
failure log. -/
inductive SEvent where
  | ran : Nat → SEvent
  | skipped : SEvent
  | handlerFailed : Nat → Nat → SEvent
  | pushFailed : SEvent
  deriving Repr, DecidableEq

/-- The handler loop of shutdown(): iterates the handlers in registration
order carrying the loop index, the didPanic flag and the normal flag.
Once didPanic is set, every later handler is skipped with a warning;
otherwise the handler runs, a non-nil error is logged with its one-based
position and total count and clears normal, and the panicked result of the
call becomes the new didPanic. Returns (didPanic, normal, events). -/
def runHandlers (numHandlers : Nat) : Nat → Bool → Bool → List HandlerB →
    Bool × Bool × List SEvent
  | _, didPanic, normal, [] => (didPanic, normal, [])
  | i, didPanic, normal, h :: rest =>
    if didPanic then
      let r := runHandlers numHandlers (i + 1) didPanic normal rest
      (r.1, r.2.1, SEvent.skipped :: r.2.2)
    else
      let pe := runShutdownHandler h
      let normal2 := if pe.2 = Option.none then normal else false
      let fev : List SEvent :=
        if pe.2 = Option.none then [] else [SEvent.handlerFailed (i + 1) numHandlers]
      let r := runHandlers numHandlers (i + 1) pe.1 normal2 rest
      (r.1, r.2.1, SEvent.ran i :: (fev ++ r.2.2))

/-- The metrics pusher configuration and outcome: `none` means no pusher is
configured, `some none` a successful push, `some (some e)` a failed push. -/
def pushOKb : Option (Option Err) → Bool
  | Option.none => true
  | some Option.none => true
  | some (some _) => false

/-- Outcome of shutdown(): its observable events, the final normal flag,
and the process exit code chosen from it. -/
structure ShutdownOut where
  events : List SEvent
  normal : Bool
  exitCode : Int
  deriving Repr, DecidableEq

/-- shutdown() from the package-level srv variant: runs the handler chain,
then the metrics push if configured (a push failure is logged and clears
normal), and exits 0 when normal and 1 otherwise. -/
def shutdown (handlers : List HandlerB) (pusher : Option (Option Err)) : ShutdownOut :=
  let r := runHandlers handlers.length 0 false true handlers
  let evs2 := match pusher with
    | some (some _) => r.2.2 ++ [SEvent.pushFailed]
    | _ => r.2.2
  let normal2 := r.2.1 && pushOKb pusher
  ⟨evs2, normal2, if normal2 then 0 else 1⟩

/-- Zero-based positions of the handlers that were invoked, in order. -/
def ranOf (evs : List SEvent) : List Nat :=
  evs.filterMap fun e => match e with | SEvent.ran i => some i | _ => none

/-- Number of skip warnings in the event list. -/
def skippedCount (evs : List SEvent) : Nat :=
  evs.countP fun e => match e with | SEvent.skipped => true | _ => false

/-- The (one-based position, total count) pairs of the handler-failure logs,
in order. -/
def failedOf (evs : List SEvent) : List (Nat × Nat) :=
  evs.filterMap fun e => match e with | SEvent.handlerFailed i n => some (i, n) | _ => none

/-- Expected event sequence of a panic-free prefix of the handler chain
starting at index i: each handler logs its invocation, followed by a
failure log when its error is non-nil. -/
def preEvents (n : Nat) : Nat → List HandlerB → List SEvent
  | _, [] => []
  | i, h :: rest =>
    SEvent.ran i ::
      ((if h.retErr = Option.none then [] else [SEvent.handlerFailed (i + 1) n]) ++
        preEvents n (i + 1) rest)

/-- Expected (one-based position, total count) pairs of the failing handlers
of a panic-free chain starting at index i. -/
def errPositions (n : Nat) : Nat → List HandlerB → List (Nat × Nat)
  | _, [] => []
  | i, h :: rest =>
    (if h.retErr = Option.none then [] else [(i + 1, n)]) ++ errPositions n (i + 1) rest

/-- errgroup Wait: the first non-nil error of the job results (completion
order abstracted as list order), nil when every job returned nil. -/
def egWait (results : List (Option Err)) : Option Err :=
  results.findSome? id

/-- The values sent on the srvJobErrs channel by serve(): nothing when no
jobs are registered, otherwise exactly one value, the aggregated result of
eg.Wait(). -/
def jobErrSends (results : List (Option Err)) : List (Option Err) :=
  if results.isEmpty then [] else [egWait results]

/-- The jobErrs arm of the select loop of shutdownWatcher, fed the sequence
of values actually received on the channel: a non-nil error breaks the loop
at once; a nil value decrements numJobs and breaks only when it reaches
zero. The outer `none` means the receipts were exhausted with the loop
still waiting (the watcher blocks; neither signals nor context cancellation
are modelled here). The inner value is the reason the loop broke:
`some e` a failed job, `none` all jobs complete. -/
def shutdownWatcher : Int → List (Option Err) → Option (Option Err)
  | _, [] => Option.none
  | _, (some e) :: _ => some (some e)
  | numJobs, Option.none :: rest =>
    if numJobs - 1 = 0 then some Option.none
    else shutdownWatcher (numJobs - 1) rest

/-- The job path of serve() followed by shutdown(): the job results are
aggregated by the errgroup, sent once on the channel, consumed by the
watcher, and, when the watcher breaks its loop, shutdown() chooses the exit
code. `none` means the watcher never breaks via the job path and the
process stays up. -/
def processExitJobsOnly (jobResults : List (Option Err)) (handlers : List HandlerB)
    (pusher : Option (Option Err)) : Option Int :=
  match shutdownWatcher (jobResults.length : Int) (jobErrSends jobResults) with
  | Option.none => Option.none
  | some _ => some (shutdown handlers pusher).exitCode

/-- The readiness gate of the readiness handler: the started flag, the
closed flag and the outstanding-busy counter. -/
structure ReadinessGate where
  isReady : Bool
  isClosed : Bool
  outstanding : Int
  deriving Repr, DecidableEq

/-- readinessHandler.add: increment the outstanding counter. -/
def ReadinessGate.add (g : ReadinessGate) : ReadinessGate :=
  { g with outstanding := g.outstanding + 1 }

/-- readinessHandler.sub: decrement the outstanding counter. -/
def ReadinessGate.sub (g : ReadinessGate) : ReadinessGate :=
  { g with outstanding := g.outstanding - 1 }

/-- UnavailableWhile(reason, f): increments the counter, runs f, and
decrements only on the return path: the source calls add, then f, then sub
in straight-line code with no defer, so a panic in f propagates before sub
runs. Result: the gate afterwards, and `some r` when f returned r, `none`
when the panic of f propagated out. -/
def UnavailableWhile (g : ReadinessGate) (f : HandlerB) : ReadinessGate × Option (Option Err) :=
  let g1 := g.add
  match f with
  | .panics _ => (g1, Option.none)
  | .ret e => (g1.sub, some e)

/-- The readiness ServeHTTP decision: available (200) unless the gate is
closed, the outstanding counter is positive, or the gate is not ready
(503). -/
def readyzAvailable (g : ReadinessGate) : Bool :=
  !(g.isClosed || decide ((0:Int) < g.outstanding) || !g.isReady)

/-- State of the termination log: whether the opened OS file handle is still
open, whether the srvTermlogfile variable is non-nil, whether the srvTermlog
logger is non-nil, how many times the file was actually closed, and the
lines written. -/
structure TermlogSt where
  fileOpen : Bool
  fileVar : Bool
  loggerSet : Bool
  closeCalls : Nat
  lines : List String
  deriving Repr, DecidableEq

/-- The zero state before initTermLog: nothing open, both variables nil. -/
def termlogInit : TermlogSt := ⟨false, false, false, 0, []⟩

/-- initTermLog, successful-open branch: the opened handle is bound to the
local tl and used to build the srvTermlog logger, but the srvTermlogfile
variable is never assigned, exactly as in the source. -/
def initTermLog (st : TermlogSt) : TermlogSt :=
  { st with fileOpen := true, loggerSet := true }

/-- termlogWrite: appends the line when the srvTermlog logger is non-nil,
otherwise does nothing. -/
def termlogWrite (st : TermlogSt) (msg : String) : TermlogSt :=
  if st.loggerSet then { st with lines := st.lines ++ [msg] } else st

/-- termlogClose: calls Close on the file only when the srvTermlogfile
variable is non-nil, then nils both variables. -/
def termlogClose (st : TermlogSt) : TermlogSt :=
  let st := if st.fileVar then { st with closeCalls := st.closeCalls + 1, fileOpen := false }
            else st
  { st with fileVar := false, loggerSet := false }

/-- The termination-log lines written while the shutdown events happen:
sTermLogErr lines for failed handlers and for a failed push. -/
def termlogLinesOfEvents (evs : List SEvent) : List String :=
  evs.filterMap fun e =>
    match e with
    | SEvent.handlerFailed _ _ => some "shutdown handler failed"
    | SEvent.pushFailed => some "failed to push to pushgateway"
    | _ => Option.none

/-- The tail of shutdown(): writes the final SHUTDOWN diagnostic line, then
calls termlogClose, and the deferred os.Exit fires last with 0 when normal
and 1 otherwise. -/
def shutdownFinalize (normal : Bool) (st : TermlogSt) : TermlogSt × Int :=
  let st := termlogWrite st (if normal then "SHUTDOWN - OK" else "SHUTDOWN - NOT OK")
  (termlogClose st, if normal then 0 else 1)

/-- The whole shutdown sequence threaded through the termination-log state:
handler chain and push (writing their sTermLogErr lines), then the final
diagnostic line, then termlogClose, then exit. -/
def fullShutdown (handlers : List HandlerB) (pusher : Option (Option Err))
    (st : TermlogSt) : TermlogSt × Int :=
  let out := shutdown handlers pusher
  let st := (termlogLinesOfEvents out.events).foldl termlogWrite st
  shutdownFinalize out.normal st

/-- Expected warning events of a run of consecutive failures: one warnFailed per
invocation, carrying the incremented counter and the cap. -/
def warnList (f m : Int) : Nat → List HEvent
  | 0 => []
  | k + 1 => HEvent.warnFailed (f + 1) m :: warnList (f + 1) m k

/-- Expected status trace of a run of consecutive failures. -/
def failTrace (e : Err) (f m : Int) : Nat → List CheckStatus
  | 0 => []
  | k + 1 => ⟨some e, f + 1, m⟩ :: failTrace e (f + 1) m k

/-- A check-function invocation result that always fails. -/
def failingCheck : Option Err := some "boom"

/-- A well-formed health check used to probe duplicate registration. -/
def cfoo : HealthCheck := ⟨"foo", 30 * second, 10 * second, 1⟩

/-- Statement of claim C6 at failure cap m, probe length k and overshoot j. -/
def C6Prop (m k j : Nat) : Prop :=
  (dispatchRun ⟨Option.none, 0, (m:Int)⟩ (List.replicate k failingCheck)).terminal = false
  ∧ (dispatchRun ⟨Option.none, 0, (m:Int)⟩ (List.replicate k failingCheck)).final.failures = (k:Int)
  ∧ livezSingle (dispatchRun ⟨Option.none, 0, (m:Int)⟩ (List.replicate k failingCheck)).final = 200
  ∧ HEvent.errorFailed ∉ (dispatchRun ⟨Option.none, 0, (m:Int)⟩ (List.replicate k failingCheck)).events
  ∧ (dispatchRun ⟨Option.none, 0, (m:Int)⟩ (List.replicate m failingCheck)).terminal = true
  ∧ (dispatchRun ⟨Option.none, 0, (m:Int)⟩ (List.replicate m failingCheck)).final.failures = (m:Int)
  ∧ livezSingle (dispatchRun ⟨Option.none, 0, (m:Int)⟩ (List.replicate m failingCheck)).final = 500
  ∧ (dispatchRun ⟨Option.none, 0, (m:Int)⟩ (List.replicate m failingCheck)).events.getLast?
      = some HEvent.errorFailed
  ∧ dispatchRun ⟨Option.none, 0, (m:Int)⟩ (List.replicate (m + j) failingCheck)
      = dispatchRun ⟨Option.none, 0, (m:Int)⟩ (List.replicate m failingCheck)

/-- Statement of claim C7 at failure cap m. -/
def C7Prop (m : Nat) : Prop :=
  (dispatchRun ⟨Option.none, 0, (m:Int)⟩
      (List.replicate (m - 1) failingCheck ++ [Option.none])).final.failures = 0
  ∧ (dispatchRun ⟨Option.none, 0, (m:Int)⟩
      (List.replicate (m - 1) failingCheck ++ [Option.none])).terminal = false
  ∧ (dispatchRun ⟨Option.none, 0, (m:Int)⟩
      (List.replicate (m - 1) failingCheck ++ [Option.none])).events.getLast?
      = some HEvent.recovered
  ∧ ((⟨Option.none, 0, (m:Int)⟩ :: (dispatchRun ⟨Option.none, 0, (m:Int)⟩
      (List.replicate (m - 1) failingCheck ++ [Option.none])).trace).all
        fun s => livezSingle s == 200) = true

/-- Statement of claim C3 for a handler chain pre ++ panics v :: post. -/
def C3Prop (pre post : List HandlerB) (v : String) (pusher : Option (Option Err)) : Prop :=
  ranOf (shutdown (pre ++ HandlerB.panics v :: post) pusher).events = List.range (pre.length + 1)
  ∧ skippedCount (shutdown (pre ++ HandlerB.panics v :: post) pusher).events = post.length

/-- Statement of claim C4 for a handler chain and pusher configuration. -/
def C4Prop (handlers : List HandlerB) (pusher : Option (Option Err)) : Prop :=
  (shutdown handlers pusher).exitCode =
    (if (handlers.all fun h => h.retErr == Option.none) && pushOKb pusher then 0 else 1)
  ∧ ((handlers.all fun h => !h.isPanics) = true →
      ranOf (shutdown handlers pusher).events = List.range handlers.length
      ∧ failedOf (shutdown handlers pusher).events = errPositions handlers.length 0 handlers)

/-- Statement of claim C9: after a full shutdown following a successful
initTermLog, the termination-log file was closed zero times and its OS handle
is still open, although the final SHUTDOWN diagnostic line was written last. -/
def C9Prop (handlers : List HandlerB) (pusher : Option (Option Err)) : Prop :=
  (fullShutdown handlers pusher (initTermLog termlogInit)).1.closeCalls = 0
  ∧ (fullShutdown handlers pusher (initTermLog termlogInit)).1.fileOpen = true
  ∧ (fullShutdown handlers pusher (initTermLog termlogInit)).1.lines.getLast?
      = some (if (shutdown handlers pusher).normal then "SHUTDOWN - OK"
              else "SHUTDOWN - NOT OK")

theorem runCheck_ok (er : Option Err) (f m : Int) :
    runCheck ⟨er, f, m⟩ Option.none =
      (⟨Option.none, 0, m⟩, false, if (0:Int) < f then [HEvent.recovered] else []) := rfl

theorem runCheck_fail_below (er : Option Err) (f m : Int) (e : Err) (h : f + 1 < m) :
    runCheck ⟨er, f, m⟩ (some e) =
      (⟨some e, f + 1, m⟩, false, [HEvent.warnFailed (f + 1) m]) := by
  simp only [runCheck]
  rw [if_neg (by omega)]

theorem runCheck_fail_cap (er : Option Err) (f m : Int) (e : Err) (h : m ≤ f + 1) :
    runCheck ⟨er, f, m⟩ (some e) = (⟨some e, f + 1, m⟩, true, [HEvent.errorFailed]) := by
  simp only [runCheck]
  rw [if_pos (by omega)]

theorem dispatchRun_cons_not_terminal (st : CheckStatus) (r : Option Err)
    (rs : List (Option Err)) (st2 : CheckStatus) (evs : List HEvent)
    (hrc : runCheck st r = (st2, false, evs)) :
    dispatchRun st (r :: rs) =
      ⟨(dispatchRun st2 rs).final, (dispatchRun st2 rs).terminal,
       evs ++ (dispatchRun st2 rs).events, st2 :: (dispatchRun st2 rs).trace⟩ := by
  simp [dispatchRun, hrc]

theorem dispatchRun_cons_terminal (st : CheckStatus) (r : Option Err)
    (rs : List (Option Err)) (st2 : CheckStatus) (evs : List HEvent)
    (hrc : runCheck st r = (st2, true, evs)) :
    dispatchRun st (r :: rs) = ⟨st2, true, evs, [st2]⟩ := by
  simp [dispatchRun, hrc]

theorem dispatchRun_replicate_fail_below (e : Err) :
    ∀ (k : Nat) (er : Option Err) (f m : Int), f + k < m →
    dispatchRun ⟨er, f, m⟩ (List.replicate k (some e)) =
      ⟨⟨if k = 0 then er else some e, f + k, m⟩, false, warnList f m k, failTrace e f m k⟩ := by
  intro k
  induction k with
  | zero => intro er f m h; simp [dispatchRun, warnList, failTrace]
  | succ k ih =>
    intro er f m h
    have h1 : f + 1 < m := by push_cast at h; omega
    have ihx := ih (some e) (f + 1) m (by push_cast at h ⊢; omega)
    simp only [List.replicate_succ, dispatchRun]
    rw [runCheck_fail_below er f m e h1]
    simp only [ihx, warnList, failTrace]
    rw [if_neg]
    · simp only [DispatchOut.mk.injEq, CheckStatus.mk.injEq, List.singleton_append]
      refine ⟨⟨?_, ?_, trivial⟩, trivial, trivial, trivial⟩
      · split <;> rfl
      · push_cast; ring
    · simp

theorem dispatchRun_replicate_fail_cap (e : Err) :
    ∀ (k : Nat) (er : Option Err) (f m : Int), f + k + 1 = m →
    dispatchRun ⟨er, f, m⟩ (List.replicate (k + 1) (some e)) =
      ⟨⟨some e, m, m⟩, true, warnList f m k ++ [HEvent.errorFailed],
        failTrace e f m k ++ [⟨some e, m, m⟩]⟩ := by
  intro k
  induction k with
  | zero =>
    intro er f m h
    have h1 : m ≤ f + 1 := by push_cast at h; omega
    simp only [List.replicate_succ, List.replicate_zero, dispatchRun]
    rw [runCheck_fail_cap er f m e h1]
    simp only [warnList, failTrace, List.nil_append, if_pos]
    have hf : f + 1 = m := by push_cast at h; omega
    simp [hf]
  | succ k ih =>
    intro er f m h
    have h1 : f + 1 < m := by push_cast at h; omega
    have ihx := ih (some e) (f + 1) m (by push_cast at h ⊢; omega)
    rw [List.replicate_succ,
        dispatchRun_cons_not_terminal _ _ _ _ _ (runCheck_fail_below er f m e h1), ihx]
    simp [warnList, failTrace]

theorem dispatchRun_append_terminal :
    ∀ (l1 : List (Option Err)) (st : CheckStatus), (dispatchRun st l1).terminal = true →
    ∀ l2, dispatchRun st (l1 ++ l2) = dispatchRun st l1 := by
  intro l1
  induction l1 with
  | nil => intro st h l2; simp [dispatchRun] at h
  | cons r rs ih =>
    intro st h l2
    rcases hrc : runCheck st r with ⟨st2, t, evs⟩
    cases t
    · have h2 : (dispatchRun st2 rs).terminal = true := by
        rw [dispatchRun_cons_not_terminal st r rs st2 evs hrc] at h
        exact h
      rw [List.cons_append, dispatchRun_cons_not_terminal st r (rs ++ l2) st2 evs hrc,
          dispatchRun_cons_not_terminal st r rs st2 evs hrc, ih st2 h2 l2]
    · rw [List.cons_append, dispatchRun_cons_terminal st r (rs ++ l2) st2 evs hrc,
          dispatchRun_cons_terminal st r rs st2 evs hrc]

theorem dispatchRun_append_not_terminal :
    ∀ (l1 : List (Option Err)) (st : CheckStatus), (dispatchRun st l1).terminal = false →
    ∀ l2, dispatchRun st (l1 ++ l2) =
      ⟨(dispatchRun (dispatchRun st l1).final l2).final,
       (dispatchRun (dispatchRun st l1).final l2).terminal,
       (dispatchRun st l1).events ++ (dispatchRun (dispatchRun st l1).final l2).events,
       (dispatchRun st l1).trace ++ (dispatchRun (dispatchRun st l1).final l2).trace⟩ := by
  intro l1
  induction l1 with
  | nil => intro st h l2; rfl
  | cons r rs ih =>
    intro st h l2
    rcases hrc : runCheck st r with ⟨st2, t, evs⟩
    cases t
    · have h2 : (dispatchRun st2 rs).terminal = false := by
        rw [dispatchRun_cons_not_terminal st r rs st2 evs hrc] at h
        exact h
      rw [List.cons_append, dispatchRun_cons_not_terminal st r (rs ++ l2) st2 evs hrc,
          dispatchRun_cons_not_terminal st r rs st2 evs hrc, ih st2 h2 l2]
      simp [List.append_assoc]
    · exfalso
      rw [dispatchRun_cons_terminal st r rs st2 evs hrc] at h
      simp at h

theorem livezSingle_eq (st : CheckStatus) :
    livezSingle st = if st.maxFailures ≤ st.failures then 500 else 200 := by
  simp [livezSingle, startedWith, Handler.ServeHTTP]
  split <;> simp_all

theorem errorFailed_not_mem_warnList :
    ∀ (k : Nat) (f m : Int), HEvent.errorFailed ∉ warnList f m k := by
  intro k
  induction k with
  | zero => intro f m; simp [warnList]
  | succ k ih => intro f m; simp [warnList]; exact ih (f + 1) m

theorem failTrace_all_ok (e : Err) :
    ∀ (k : Nat) (f m : Int), f + k < m →
    ((failTrace e f m k).all fun s => livezSingle s == 200) = true := by
  intro k
  induction k with
  | zero => intro f m h; simp [failTrace]
  | succ k ih =>
    intro f m h
    have h1 : ¬ (m ≤ f + 1) := by push_cast at h; omega
    simp only [failTrace, List.all_cons, Bool.and_eq_true]
    constructor
    · simp [livezSingle_eq, h1]
    · exact ih (f + 1) m (by push_cast at h ⊢; omega)

theorem getLast_append_one {α : Type} (l : List α) (a : α) : (l ++ [a]).getLast? = some a := by
  rw [List.getLast?_concat]

theorem runHandlers_skip (n : Nat) :
    ∀ (l : List HandlerB) (i : Nat) (normal : Bool),
    runHandlers n i true normal l = (true, normal, List.replicate l.length SEvent.skipped) := by
  intro l
  induction l with
  | nil => intro i normal; rfl
  | cons h rest ih =>
    intro i normal
    simp only [runHandlers, if_pos, List.length_cons, List.replicate_succ]
    rw [ih (i + 1) normal]

theorem runHandlers_no_panic (n : Nat) :
    ∀ (l : List HandlerB) (i : Nat) (normal : Bool),
    (∀ h ∈ l, h.isPanics = false) →
    runHandlers n i false normal l =
      (false, normal && l.all (fun h => h.retErr == Option.none), preEvents n i l) := by
  intro l
  induction l with
  | nil => intro i normal _; simp [runHandlers, preEvents]
  | cons h rest ih =>
    intro i normal hnp
    have hh : h.isPanics = false := hnp h (by simp)
    have hrest : ∀ x ∈ rest, x.isPanics = false := fun x hx => hnp x (by simp [hx])
    cases h with
    | ret e =>
      cases e with
      | none =>
        have hi := ih (i + 1) normal hrest
        simp [runHandlers, runShutdownHandler, hi, preEvents, HandlerB.retErr]
      | some e0 =>
        have hi := ih (i + 1) false hrest
        simp [runHandlers, runShutdownHandler, hi, preEvents, HandlerB.retErr]
    | panics v =>
      simp [HandlerB.isPanics] at hh

theorem runHandlers_split_panic (n : Nat) (v : String) (post : List HandlerB) :
    ∀ (pre : List HandlerB) (i : Nat) (normal : Bool),
    (∀ h ∈ pre, h.isPanics = false) →
    runHandlers n i false normal (pre ++ HandlerB.panics v :: post) =
      (true, false,
        preEvents n i pre ++
          SEvent.ran (i + pre.length) ::
            SEvent.handlerFailed (i + pre.length + 1) n ::
              List.replicate post.length SEvent.skipped) := by
  intro pre
  induction pre with
  | nil =>
    intro i normal _
    have hs := runHandlers_skip n post (i + 1) false
    simp [runHandlers, runShutdownHandler, hs, preEvents]
  | cons h rest ih =>
    intro i normal hnp
    have hh : h.isPanics = false := hnp h (by simp)
    have hrest : ∀ x ∈ rest, x.isPanics = false := fun x hx => hnp x (by simp [hx])
    cases h with
    | ret e =>
      cases e with
      | none =>
        have hi := ih (i + 1) normal hrest
        simp [runHandlers, runShutdownHandler, hi, preEvents, HandlerB.retErr,
          Nat.add_assoc, Nat.add_comm 1 rest.length]
      | some e0 =>
        have hi := ih (i + 1) false hrest
        simp [runHandlers, runShutdownHandler, hi, preEvents, HandlerB.retErr,
          Nat.add_assoc, Nat.add_comm 1 rest.length]
    | panics v2 =>
      simp [HandlerB.isPanics] at hh

theorem runHandlers_normal (n : Nat) :
    ∀ (l : List HandlerB) (i : Nat) (normal : Bool),
    (runHandlers n i false normal l).2.1 =
      (normal && l.all fun h => h.retErr == Option.none) := by
  intro l
  induction l with
  | nil => intro i normal; simp [runHandlers]
  | cons h rest ih =>
    intro i normal
    cases h with
    | ret e =>
      cases e with
      | none => simp [runHandlers, runShutdownHandler, ih (i + 1) normal, HandlerB.retErr]
      | some e0 => simp [runHandlers, runShutdownHandler, ih (i + 1) false, HandlerB.retErr]
    | panics v =>
      have hs := runHandlers_skip n rest (i + 1) false
      simp [runHandlers, runShutdownHandler, hs, HandlerB.retErr]

theorem ranOf_nil : ranOf [] = [] := rfl

theorem ranOf_append (a b : List SEvent) : ranOf (a ++ b) = ranOf a ++ ranOf b :=
  List.filterMap_append a b _

theorem ranOf_cons_ran (i : Nat) (evs : List SEvent) :
    ranOf (SEvent.ran i :: evs) = i :: ranOf evs := rfl

theorem ranOf_cons_skipped (evs : List SEvent) :
    ranOf (SEvent.skipped :: evs) = ranOf evs := rfl

theorem ranOf_cons_failed (i n : Nat) (evs : List SEvent) :
    ranOf (SEvent.handlerFailed i n :: evs) = ranOf evs := rfl

theorem ranOf_cons_push (evs : List SEvent) :
    ranOf (SEvent.pushFailed :: evs) = ranOf evs := rfl

theorem ranOf_replicate_skipped :
    ∀ k : Nat, ranOf (List.replicate k SEvent.skipped) = [] := by
  intro k
  induction k with
  | zero => rfl
  | succ k ih => rw [List.replicate_succ, ranOf_cons_skipped, ih]

theorem map_add_range (i k : Nat) :
    i :: List.map (fun t => (i + 1) + t) (List.range k) =
      List.map (fun t => i + t) (List.range (k + 1)) := by
  rw [List.range_succ_eq_map]
  simp only [List.map_cons, Nat.add_zero, List.map_map]
  refine congrArg _ ?_
  apply List.map_congr_left
  intro t _
  simp only [Function.comp_apply]
  omega

theorem ranOf_preEvents (n : Nat) :
    ∀ (l : List HandlerB) (i : Nat),
    ranOf (preEvents n i l) = (List.range l.length).map (fun t => i + t) := by
  intro l
  induction l with
  | nil => intro i; simp [preEvents, ranOf]
  | cons h rest ih =>
    intro i
    simp only [preEvents, List.length_cons]
    by_cases he : h.retErr = Option.none
    · rw [if_pos he]
      simp only [List.nil_append, ranOf_cons_ran, ih (i + 1)]
      exact map_add_range i rest.length
    · rw [if_neg he]
      simp only [List.singleton_append, ranOf_cons_ran, ranOf_cons_failed, ih (i + 1)]
      exact map_add_range i rest.length

theorem skippedCount_append (a b : List SEvent) :
    skippedCount (a ++ b) = skippedCount a + skippedCount b :=
  List.countP_append _ a b

theorem skippedCount_preEvents (n : Nat) :
    ∀ (l : List HandlerB) (i : Nat), skippedCount (preEvents n i l) = 0 := by
  intro l
  induction l with
  | nil => intro i; rfl
  | cons h rest ih =>
    intro i
    simp only [preEvents]
    by_cases he : h.retErr = Option.none
    · rw [if_pos he]
      simp only [List.nil_append, skippedCount, List.countP_cons]
      have := ih (i + 1)
      simp only [skippedCount] at this
      simp [this]
    · rw [if_neg he]
      simp only [List.singleton_append, skippedCount, List.countP_cons]
      have := ih (i + 1)
      simp only [skippedCount] at this
      simp [this]

theorem skippedCount_replicate :
    ∀ k : Nat, skippedCount (List.replicate k SEvent.skipped) = k := by
  intro k
  induction k with
  | zero => rfl
  | succ k ih =>
    rw [List.replicate_succ]
    simp only [skippedCount, List.countP_cons]
    simp only [skippedCount] at ih
    simp [ih]

theorem failedOf_append (a b : List SEvent) :
    failedOf (a ++ b) = failedOf a ++ failedOf b :=
  List.filterMap_append a b _

theorem failedOf_preEvents (n : Nat) :
    ∀ (l : List HandlerB) (i : Nat), failedOf (preEvents n i l) = errPositions n i l := by
  intro l
  induction l with
  | nil => intro i; rfl
  | cons h rest ih =>
    intro i
    simp only [preEvents, errPositions]
    by_cases he : h.retErr = Option.none
    · rw [if_pos he, if_pos he]
      simp only [List.nil_append]
      show failedOf (SEvent.ran i :: preEvents n (i + 1) rest) = errPositions n (i + 1) rest
      show failedOf (preEvents n (i + 1) rest) = errPositions n (i + 1) rest
      exact ih (i + 1)
    · rw [if_neg he, if_neg he]
      simp only [List.singleton_append]
      show failedOf (SEvent.ran i :: SEvent.handlerFailed (i + 1) n :: preEvents n (i + 1) rest)
        = (i + 1, n) :: errPositions n (i + 1) rest
      show (i + 1, n) :: failedOf (preEvents n (i + 1) rest)
        = (i + 1, n) :: errPositions n (i + 1) rest
      rw [ih (i + 1)]

theorem ranOf_shutdown (handlers : List HandlerB) (pusher : Option (Option Err)) :
    ranOf (shutdown handlers pusher).events =
      ranOf (runHandlers handlers.length 0 false true handlers).2.2 := by
  rcases pusher with _ | (_ | e)
  · rfl
  · rfl
  · show ranOf (_ ++ [SEvent.pushFailed]) = _
    rw [ranOf_append]
    simp [ranOf]

theorem skippedCount_shutdown (handlers : List HandlerB) (pusher : Option (Option Err)) :
    skippedCount (shutdown handlers pusher).events =
      skippedCount (runHandlers handlers.length 0 false true handlers).2.2 := by
  rcases pusher with _ | (_ | e)
  · rfl
  · rfl
  · show skippedCount (_ ++ [SEvent.pushFailed]) = _
    rw [skippedCount_append]
    simp [skippedCount]

theorem failedOf_shutdown (handlers : List HandlerB) (pusher : Option (Option Err)) :
    failedOf (shutdown handlers pusher).events =
      failedOf (runHandlers handlers.length 0 false true handlers).2.2 := by
  rcases pusher with _ | (_ | e)
  · rfl
  · rfl
  · show failedOf (_ ++ [SEvent.pushFailed]) = _
    rw [failedOf_append]
    simp [failedOf]

theorem map_zero_add_range (k : Nat) :
    (List.range k).map (fun t => 0 + t) = List.range k := by
  simp only [Nat.zero_add]
  exact List.map_id _

theorem termlogWrite_fileVar (st : TermlogSt) (msg : String) :
    (termlogWrite st msg).fileVar = st.fileVar := by
  simp only [termlogWrite]
  split <;> rfl

theorem termlogWrite_fileOpen (st : TermlogSt) (msg : String) :
    (termlogWrite st msg).fileOpen = st.fileOpen := by
  simp only [termlogWrite]
  split <;> rfl

theorem termlogWrite_loggerSet (st : TermlogSt) (msg : String) :
    (termlogWrite st msg).loggerSet = st.loggerSet := by
  simp only [termlogWrite]
  split <;> rfl

theorem termlogWrite_closeCalls (st : TermlogSt) (msg : String) :
    (termlogWrite st msg).closeCalls = st.closeCalls := by
  simp only [termlogWrite]
  split <;> rfl

theorem foldl_termlogWrite_fields (msgs : List String) : ∀ (st : TermlogSt),
    (msgs.foldl termlogWrite st).fileVar = st.fileVar
    ∧ (msgs.foldl termlogWrite st).fileOpen = st.fileOpen
    ∧ (msgs.foldl termlogWrite st).loggerSet = st.loggerSet
    ∧ (msgs.foldl termlogWrite st).closeCalls = st.closeCalls := by
  induction msgs with
  | nil => intro st; exact ⟨rfl, rfl, rfl, rfl⟩
  | cons msg rest ih =>
    intro st
    have h := ih (termlogWrite st msg)
    simp only [List.foldl_cons]
    exact ⟨h.1.trans (termlogWrite_fileVar st msg),
      h.2.1.trans (termlogWrite_fileOpen st msg),
      h.2.2.1.trans (termlogWrite_loggerSet st msg),
      h.2.2.2.trans (termlogWrite_closeCalls st msg)⟩

theorem addCheck_characterization (h : Handler) (c : HealthCheck)
    (hcl : h.closed = false) (hdup : (h.status.lookup c.id).isSome = false) :
    h.AddCheck c =
      if c.interval ≤ c.timeout then Except.error "interval must be greater than timeout"
      else Except.ok { h with checks := h.checks ++ [⟨c.id,
        if c.interval ≤ 0 then defaultInterval else c.interval,
        if c.timeout ≤ 0 then defaultTimeout else c.timeout,
        if c.maxFailures < 0 then 1 else c.maxFailures⟩] } := by
  simp only [Handler.AddCheck, hcl, hdup, Bool.false_eq_true, if_false]

/-- C1: the spec claims that whenever every registered job returns nil, the
aggregate job result is nil and the process shuts down and exits 0, for any
number of jobs. In the code, serve sends exactly one value on the job-error
channel, the aggregated result of eg.Wait, while shutdownWatcher decrements its
job counter once per received value; the counter therefore reaches zero only
when exactly one job is registered. With one clean job the process exits 0;
with two clean jobs the aggregate is still nil but the watcher never breaks its
loop via the job path, so the process never shuts down. -/
theorem jobWatcher_two_clean_jobs_block_shutdown :
    egWait [Option.none, Option.none] = Option.none
    ∧ processExitJobsOnly [Option.none] [] Option.none = some 0
    ∧ processExitJobsOnly [Option.none, Option.none] [] Option.none = Option.none := by
  decide

/-- C2: the spec claims UnavailableWhile decrements the outstanding-busy counter
exactly once per call, even when the wrapped function returns an error or
panics, so the readiness gate becomes available again. The error path does
decrement and returns the error unchanged, but the source has no defer: when
the function panics, the decrement is skipped, the counter stays at 1 and the
readiness gate stays unavailable. -/
theorem unavailableWhile_panic_skips_decrement :
    UnavailableWhile ⟨true, false, 0⟩ (HandlerB.panics "boom")
      = (⟨true, false, 1⟩, Option.none)
    ∧ readyzAvailable (UnavailableWhile ⟨true, false, 0⟩ (HandlerB.panics "boom")).1 = false
    ∧ UnavailableWhile ⟨true, false, 0⟩ (HandlerB.ret (some "e"))
      = (⟨true, false, 0⟩, some (some "e"))
    ∧ readyzAvailable (UnavailableWhile ⟨true, false, 0⟩ (HandlerB.ret (some "e"))).1 = true := by
  decide

/-- C3: shutdown handlers run strictly sequentially in registration order; when
one panics, every later handler is logged as skipped and never invoked, while
the handlers before and including the panicking one all ran (their invocation
events are exactly positions 0 through pre.length, in order, so earlier
effects are preserved). -/
theorem shutdownHandlers_panic_policy (pre post : List HandlerB) (v : String)
    (pusher : Option (Option Err)) (hnp : (pre.all fun h => !h.isPanics) = true) :
    C3Prop pre post v pusher := by
  have hnp2 : ∀ h ∈ pre, h.isPanics = false := by
    intro h hh
    have := List.all_eq_true.mp hnp h hh
    simpa using this
  have hsplit := runHandlers_split_panic (pre ++ HandlerB.panics v :: post).length v post
    pre 0 true hnp2
  constructor
  · rw [ranOf_shutdown, hsplit]
    show ranOf (_ ++ _) = _
    rw [ranOf_append, ranOf_preEvents, ranOf_cons_ran, ranOf_cons_failed,
      ranOf_replicate_skipped, map_zero_add_range]
    rw [Nat.zero_add, ← List.range_succ]
  · rw [skippedCount_shutdown, hsplit]
    show skippedCount (_ ++ _) = _
    rw [skippedCount_append, skippedCount_preEvents]
    show 0 + skippedCount (SEvent.ran (0 + pre.length) :: SEvent.handlerFailed (0 + pre.length + 1)
      (pre ++ HandlerB.panics v :: post).length :: List.replicate post.length SEvent.skipped)
      = post.length
    show 0 + skippedCount (List.replicate post.length SEvent.skipped) = post.length
    rw [skippedCount_replicate, Nat.zero_add]

/-- C3 witness: a concrete chain where the second of three handlers panics. -/
theorem shutdownHandlers_panic_policy_witness :
    (([HandlerB.ret Option.none].all fun h => !h.isPanics) = true)
    ∧ C3Prop [HandlerB.ret Option.none] [HandlerB.ret Option.none] "boom" Option.none :=
  ⟨by decide, shutdownHandlers_panic_policy _ _ _ _ (by decide)⟩

/-- C4 counterexample: the claim says the exit code is 1 when any job failed,
but a failed job only triggers the shutdown; shutdown() computes the exit code
from the handler chain and the metrics push alone, so a failed job with no
handlers and no pusher exits 0. -/
theorem job_failure_exits_zero :
    processExitJobsOnly [some "boom"] [] Option.none = some 0 := by
  decide

/-- C4 (amended): a handler error is logged with its one-based position and the
total handler count and flips the exit status while the chain continues; the
exit code is 0 exactly when every executed handler returned nil and the
metrics push (if configured) succeeded, and 1 when any handler failed or
panicked or the push failed. A job failure does not enter into the exit
code. -/
theorem shutdown_exit_code_and_logging (handlers : List HandlerB)
    (pusher : Option (Option Err)) : C4Prop handlers pusher := by
  constructor
  · have hn := runHandlers_normal handlers.length handlers 0 true
    rcases pusher with _ | (_ | e) <;>
      simp [shutdown, hn, pushOKb]
  · intro hnp
    have hnp2 : ∀ h ∈ handlers, h.isPanics = false := by
      intro h hh
      have := List.all_eq_true.mp hnp h hh
      simpa using this
    have hrun := runHandlers_no_panic handlers.length handlers 0 true hnp2
    constructor
    · rw [ranOf_shutdown, hrun]
      show ranOf (preEvents handlers.length 0 handlers) = _
      rw [ranOf_preEvents, map_zero_add_range]
    · rw [failedOf_shutdown, hrun]
      show failedOf (preEvents handlers.length 0 handlers) = _
      rw [failedOf_preEvents]

/-- C4 witness: one failing handler and a successful push. -/
theorem shutdown_exit_code_and_logging_witness :
    (shutdown [HandlerB.ret (some "x")] (some Option.none)).exitCode = 1
    ∧ ranOf (shutdown [HandlerB.ret (some "x")] (some Option.none)).events = [0]
    ∧ failedOf (shutdown [HandlerB.ret (some "x")] (some Option.none)).events = [(1, 1)] := by
  have h := shutdown_exit_code_and_logging [HandlerB.ret (some "x")] (some Option.none)
  have h2 := h.2 (by decide)
  refine ⟨?_, ?_, ?_⟩
  · rw [h.1]; decide
  · rw [h2.1]; decide
  · rw [h2.2]; decide

/-- C5 counterexample: the claim says defaults are applied whenever a field is
unset or non-positive and that only Interval ≤ Timeout is rejected. But the
validation runs on the values as supplied, before defaulting, so a check with
both Interval and Timeout unset (0) is rejected instead of defaulted; and a
zero MaxFailures is kept as 0 (the default of 1 applies only when negative),
not replaced by 1. -/
theorem addCheck_defaults_counterexample :
    emptyHandler.AddCheck ⟨"dbcheck", 0, 0, 0⟩
      = Except.error "interval must be greater than timeout"
    ∧ (emptyHandler.AddCheck ⟨"dbcheck", 30 * second, 10 * second, 0⟩).map
        (fun h => h.checks.map HealthCheck.maxFailures) = Except.ok [0] :=
  ⟨rfl, rfl⟩

/-- C5 (amended): AddCheck validates Interval > Timeout on the values as
supplied, before any defaulting; when validation passes it applies the
defaults before scheduling: Interval becomes 30s when non-positive, Timeout
becomes 10s when non-positive, and MaxFailures becomes 1 only when negative
(a zero MaxFailures is kept). -/
theorem addCheck_validation_and_defaults (h : Handler) (c : HealthCheck)
    (hcl : h.closed = false) (hdup : (h.status.lookup c.id).isSome = false) :
    h.AddCheck c =
      if c.interval ≤ c.timeout then Except.error "interval must be greater than timeout"
      else Except.ok { h with checks := h.checks ++ [⟨c.id,
        if c.interval ≤ 0 then defaultInterval else c.interval,
        if c.timeout ≤ 0 then defaultTimeout else c.timeout,
        if c.maxFailures < 0 then 1 else c.maxFailures⟩] } :=
  addCheck_characterization h c hcl hdup

/-- C5 witness: a check with a five-nanosecond interval, unset timeout and
negative MaxFailures is registered with the timeout and MaxFailures defaults
applied. -/
theorem addCheck_validation_and_defaults_witness :
    emptyHandler.closed = false
    ∧ ((emptyHandler.status.lookup "a").isSome = false)
    ∧ emptyHandler.AddCheck ⟨"a", 5, -1, -1⟩
      = Except.ok ⟨[⟨"a", 5, defaultTimeout, 1⟩], [], false, false⟩ := by
  refine ⟨rfl, rfl, ?_⟩
  rw [addCheck_validation_and_defaults emptyHandler ⟨"a", 5, -1, -1⟩ rfl rfl,
    if_neg (by decide)]
  rfl

/-- C6: with MaxFailures m at least 1, a check that always fails is not
terminal, keeps its consecutive-failure count below m and leaves /livez at
200 after any k < m invocations, and after exactly m invocations it becomes
terminally failed with the error-level log as the last event, /livez turns
500, and the dispatcher schedules nothing further (extra ticks change
nothing). -/
theorem healthCheck_failure_threshold (m k j : Nat) (hm : 1 ≤ m) (hk : k < m) :
    C6Prop m k j := by
  obtain ⟨m0, rfl⟩ : ∃ m0, m = m0 + 1 := ⟨m - 1, by omega⟩
  have hbelow := dispatchRun_replicate_fail_below "boom" k Option.none 0 ((m0 + 1 : Nat) : Int)
    (by push_cast; omega)
  have hcap := dispatchRun_replicate_fail_cap "boom" m0 Option.none 0 ((m0 + 1 : Nat) : Int)
    (by push_cast; omega)
  have hterm : (dispatchRun ⟨Option.none, 0, ((m0 + 1 : Nat) : Int)⟩
      (List.replicate (m0 + 1) failingCheck)).terminal = true := by
    rw [show failingCheck = some "boom" from rfl, hcap]
  refine ⟨?_, ?_, ?_, ?_, ?_, ?_, ?_, ?_, ?_⟩
  · rw [show failingCheck = some "boom" from rfl, hbelow]
  · rw [show failingCheck = some "boom" from rfl, hbelow]; simp
  · rw [show failingCheck = some "boom" from rfl, hbelow]
    simp only [livezSingle_eq]
    rw [if_neg (by push_cast; omega)]
  · rw [show failingCheck = some "boom" from rfl, hbelow]
    exact errorFailed_not_mem_warnList k 0 _
  · exact hterm
  · rw [show failingCheck = some "boom" from rfl, hcap]
  · rw [show failingCheck = some "boom" from rfl, hcap]
    simp only [livezSingle_eq]
    rw [if_pos (by push_cast; omega)]
  · rw [show failingCheck = some "boom" from rfl, hcap]
    exact getLast_append_one _ _
  · rw [List.replicate_add]
    exact dispatchRun_append_terminal _ _ hterm _

/-- C6 witness: cap 2, probe length 1, overshoot 1. -/
theorem healthCheck_failure_threshold_witness : 1 ≤ 2 ∧ 1 < 2 ∧ C6Prop 2 1 1 :=
  ⟨by decide, by decide, healthCheck_failure_threshold 2 1 1 (by decide) (by decide)⟩

/-- C7: with MaxFailures m at least 2, a check failing m - 1 consecutive times
and then succeeding has its consecutive-failure counter reset to 0, is never
terminal, logs the recovery as the last event, and /livez stays 200 at the
start and after every invocation of the sequence. -/
theorem healthCheck_success_resets (m : Nat) (hm : 2 ≤ m) : C7Prop m := by
  obtain ⟨k, rfl⟩ : ∃ k, m = k + 2 := ⟨m - 2, by omega⟩
  have hsub : (k + 2) - 1 = k + 1 := rfl
  have hbelow := dispatchRun_replicate_fail_below "boom" (k + 1) Option.none 0
    ((k + 2 : Nat) : Int) (by push_cast; omega)
  have hfin : (dispatchRun ⟨Option.none, 0, ((k + 2 : Nat) : Int)⟩
      (List.replicate (k + 1) (some "boom"))).final
      = ⟨some "boom", 0 + ((k + 1 : Nat) : Int), ((k + 2 : Nat) : Int)⟩ := by
    rw [hbelow]; simp
  have hnt : (dispatchRun ⟨Option.none, 0, ((k + 2 : Nat) : Int)⟩
      (List.replicate (k + 1) (some "boom"))).terminal = false := by
    rw [hbelow]
  have happ := dispatchRun_append_not_terminal (List.replicate (k + 1) (some "boom"))
    ⟨Option.none, 0, ((k + 2 : Nat) : Int)⟩ hnt [Option.none]
  have hrc : runCheck (⟨some "boom", 0 + ((k + 1 : Nat) : Int), ((k + 2 : Nat) : Int)⟩
      : CheckStatus) Option.none
      = (⟨Option.none, 0, ((k + 2 : Nat) : Int)⟩, false, [HEvent.recovered]) := by
    rw [runCheck_ok, if_pos (by push_cast; omega)]
  have htail : dispatchRun (⟨some "boom", 0 + ((k + 1 : Nat) : Int), ((k + 2 : Nat) : Int)⟩
      : CheckStatus) [Option.none]
      = ⟨⟨Option.none, 0, ((k + 2 : Nat) : Int)⟩, false, [HEvent.recovered],
         [⟨Option.none, 0, ((k + 2 : Nat) : Int)⟩]⟩ := by
    rw [dispatchRun_cons_not_terminal _ _ _ _ _ hrc]
    simp [dispatchRun]
  simp only [C7Prop, hsub, show failingCheck = some "boom" from rfl]
  rw [happ, hfin, htail, hbelow]
  refine ⟨rfl, rfl, ?_, ?_⟩
  · exact getLast_append_one _ _
  · simp only [List.all_cons, List.all_append, Bool.and_eq_true]
    refine ⟨?_, ?_, ?_⟩
    · simp only [livezSingle_eq]
      rw [if_neg (by push_cast; omega)]
      rfl
    · exact failTrace_all_ok "boom" (k + 1) 0 _ (by push_cast; omega)
    · refine ⟨?_, rfl⟩
      simp only [livezSingle_eq]
      rw [if_neg (by push_cast; omega)]
      rfl

/-- C7 witness: cap 2, one failure then success. -/
theorem healthCheck_success_resets_witness : 2 ≤ 2 ∧ C7Prop 2 :=
  ⟨by decide, healthCheck_success_resets 2 (by decide)⟩

/-- C8: the claim says a second AddCheck with an already-registered ID always
fails with a duplicate-ID error. The duplicate test reads the status map,
which Start alone populates: before Start, a second AddCheck with the same ID
succeeds and the check is appended twice; only after Start does the duplicate
error fire. -/
theorem addCheck_duplicate_undetected_before_start :
    Except.bind (emptyHandler.AddCheck cfoo) (fun h => h.AddCheck cfoo)
      = Except.ok ⟨[cfoo, cfoo], [], false, false⟩
    ∧ Except.bind ((emptyHandler.AddCheck cfoo).map Handler.Start) (fun h => h.AddCheck cfoo)
      = Except.error "duplicate health check name" :=
  ⟨rfl, rfl⟩

/-- C9: the claim says the termination-log file is closed exactly once at the
very end of the shutdown sequence. termlogClose is indeed invoked at the right
place, after the handlers, the push and the final SHUTDOWN line; but
initTermLog never assigns the opened file to the srvTermlogfile variable, so
the nil-guard in termlogClose always passes it by and the file is closed zero
times: after any full shutdown the close count is 0 and the handle is still
open, even though the final diagnostic line was written as the last line. -/
theorem termlog_file_never_closed (handlers : List HandlerB)
    (pusher : Option (Option Err)) : C9Prop handlers pusher := by
  have hf := foldl_termlogWrite_fields
    (termlogLinesOfEvents (shutdown handlers pusher).events) (initTermLog termlogInit)
  set stf := (termlogLinesOfEvents (shutdown handlers pusher).events).foldl termlogWrite
    (initTermLog termlogInit) with hstf
  have hvar : stf.fileVar = false := hf.1
  have hopen : stf.fileOpen = true := hf.2.1
  have hlog : stf.loggerSet = true := hf.2.2.1
  have hcc : stf.closeCalls = 0 := hf.2.2.2
  have hwr : termlogWrite stf (if (shutdown handlers pusher).normal then "SHUTDOWN - OK"
      else "SHUTDOWN - NOT OK")
      = { stf with lines := stf.lines ++ [if (shutdown handlers pusher).normal
          then "SHUTDOWN - OK" else "SHUTDOWN - NOT OK"] } := by
    simp [termlogWrite, hlog]
  have hres : fullShutdown handlers pusher (initTermLog termlogInit)
      = (termlogClose (termlogWrite stf (if (shutdown handlers pusher).normal
          then "SHUTDOWN - OK" else "SHUTDOWN - NOT OK")),
         if (shutdown handlers pusher).normal then 0 else 1) := by
    rfl
  refine ⟨?_, ?_, ?_⟩
  · rw [hres]
    show (termlogClose _).closeCalls = 0
    rw [hwr]
    simp [termlogClose, hvar, hcc]
  · rw [hres]
    show (termlogClose _).fileOpen = true
    rw [hwr]
    simp [termlogClose, hvar, hopen]
  · rw [hres]
    show (termlogClose _).lines.getLast? = _
    rw [hwr]
    simp only [termlogClose, hvar]
    rw [if_neg (by simp)]
    exact getLast_append_one _ _

/-- C10: a health check registered with MaxFailures left at its zero value is
kept at 0 (the default of 1 applies only to negative values), and once
started, /livez reports 500 NOT_OK although the check has zero recorded
failures, because 0 ≥ 0. -/
theorem addCheck_zero_maxFailures (c : HealthCheck) (hmf : c.maxFailures = 0)
    (hit : c.timeout < c.interval) :
    (emptyHandler.AddCheck c).map
        (fun hh => (hh.checks.map HealthCheck.maxFailures, hh.Start.ServeHTTP,
                    hh.Start.status.map (fun kv => kv.2.failures)))
      = Except.ok ([0], (500, "NOT_OK"), [0]) := by
  rw [addCheck_characterization emptyHandler c rfl rfl]
  rw [if_neg (by omega)]
  simp [Except.map, Handler.Start, emptyHandler, Handler.ServeHTTP, updateStatus, hmf]


/-- C10 witness: a concrete check with valid interval and timeout and zero
MaxFailures. -/
theorem addCheck_zero_maxFailures_witness :
    (⟨"db", 30 * second, 10 * second, 0⟩ : HealthCheck).maxFailures = 0
    ∧ (⟨"db", 30 * second, 10 * second, 0⟩ : HealthCheck).timeout
        < (⟨"db", 30 * second, 10 * second, 0⟩ : HealthCheck).interval
    ∧ (emptyHandler.AddCheck ⟨"db", 30 * second, 10 * second, 0⟩).map
        (fun hh => (hh.checks.map HealthCheck.maxFailures, hh.Start.ServeHTTP,
                    hh.Start.status.map (fun kv => kv.2.failures)))
      = Except.ok ([0], (500, "NOT_OK"), [0]) :=
  ⟨rfl, by decide, addCheck_zero_maxFailures _ rfl (by decide)⟩
